import Mathlib

/-!
Verification of the schema-evolution chatbot core: the schema comparison
engine and type normalizer (`schema_utils.py`), the embedding retrieval
helpers (`embedding_utils.py`), the answering pipeline (`chatbot.py`), and
the LLM backend dispatch (`llm_utils.py`), shallowly embedded from the
Python sources.  External backends (HTTP generation, sentence embedding,
the filesystem) are modelled as explicit oracle parameters; machine floats
are modelled as exact rationals.
-/

/-! ## Definitions: schema comparison (`schema_utils.py`) -/

/-- A canonical schema models a Python `Dict[str, str]` (column name → type
label) as an association list.  Python dict keys are unique; theorems that
need this take a `Nodup` hypothesis on `keys`. -/
abbrev Schema := List (String × String)

/-- The key set of a schema, in iteration order (`dict` keys). -/
def keys (s : Schema) : List String := s.map Prod.fst

/-- Python `sorted` on a list of strings: ascending lexicographic order. -/
def sortStr (l : List String) : List String := l.insertionSort (· ≤ ·)

/-- Embeds `schema_utils.compare_schemas`:
`new_cols = sorted(list(set(new) - set(existing)))`,
`missing_cols = sorted(list(set(existing) - set(new)))`, and
`conflicts` collects every key in `set(existing).intersection(new)` whose
values in the two dicts differ, then sorts.  `set(...)` over a dict's keys is
modelled by `List.dedup` of the key list (a no-op on genuine dicts). -/
def compare_schemas (existing new : Schema) :
    List String × List String × List String :=
  let new_cols := sortStr (((keys new).dedup).filter
    (fun k => decide (k ∉ keys existing)))
  let missing_cols := sortStr (((keys existing).dedup).filter
    (fun k => decide (k ∉ keys new)))
  let conflicts := sortStr (((keys existing).dedup).filter
    (fun k => decide (k ∈ keys new ∧ existing.lookup k ≠ new.lookup k)))
  (new_cols, missing_cols, conflicts)

/-! ## Definitions: type normalizer (`schema_utils.infer_schema_from_df`) -/

/-- Python's substring test `needle in hay` on lists of characters. -/
def substrB (needle : List Char) : List Char → Bool
  | [] => needle.isEmpty
  | c :: rest => needle.isPrefixOf (c :: rest) || substrB needle rest

/-- Python's `needle in hay` on strings (case-sensitive, as in the source). -/
def containsSub (hay needle : String) : Bool := substrB needle.toList hay.toList

/-- The substring relation as a proposition: `needle` occurs contiguously in
`hay`. -/
def containsSubP (hay needle : String) : Prop :=
  ∃ s t, hay.toList = s ++ needle.toList ++ t

/-- Embeds the type-normalization rule from the loop body of
`schema_utils.infer_schema_from_df`: first-match substring tests on the
column's dtype string, exactly as the Python `in` operator performs them
(case-sensitively). -/
def normalize_dtype (dtype : String) : String :=
  if containsSub dtype "int" then "INTEGER"
  else if containsSub dtype "float" then "FLOAT"
  else if containsSub dtype "bool" then "BOOLEAN"
  else if containsSub dtype "datetime" || containsSub dtype "date" then "TIMESTAMP"
  else "VARCHAR"

/-- Embeds `schema_utils.infer_schema_from_df`: a dataframe is modelled by
its column list paired with each column's dtype string. -/
def infer_schema_from_df (df : List (String × String)) : Schema :=
  df.map fun p => (p.1, normalize_dtype p.2)

/-- ASCII lower-casing of one character (the dtype alphabet is ASCII). -/
def lowerChar (c : Char) : Char :=
  if 'A' ≤ c ∧ c ≤ 'Z' then Char.ofNat (c.toNat + 32) else c

/-- ASCII lower-casing of a string, Python `str.lower()` on ASCII input. -/
def lowerStr (s : String) : String := String.mk (s.toList.map lowerChar)

/-- Modelled from the spec: §4.1 states the normalizer performs a
"case-insensitive substring match against the descriptor"; the source's
`in` tests are case-sensitive, so this second, clearly separate definition
follows the spec's words (lower-casing the descriptor first) for
comparison against `normalize_dtype`. -/
def normalize_dtype_ci (dtype : String) : String :=
  let d := lowerStr dtype
  if containsSub d "int" then "INTEGER"
  else if containsSub d "float" then "FLOAT"
  else if containsSub d "bool" then "BOOLEAN"
  else if containsSub d "datetime" || containsSub d "date" then "TIMESTAMP"
  else "VARCHAR"

/-! ## Definitions: embedding retrieval (`embedding_utils.py`)

Embedding vectors are modelled as lists of rationals (the code's float
vectors), and `np.argsort` as the deterministic stable ascending sort of
indices (numpy's sort on the short arrays this code handles is insertion
sort, which is stable). -/

/-- Dot product of two equal-width vectors (`np.dot` row · query). -/
def dot (v w : List ℚ) : ℚ := ((v.zip w).map fun p => p.1 * p.2).sum

/-- Embeds `embedding_utils.cosine_similarity_matrix`:
`np.dot(doc_vecs, query_vec)`, one dot product per stored row. -/
def cosine_similarity_matrix (query_vec : List ℚ) (doc_vecs : List (List ℚ)) :
    List ℚ :=
  doc_vecs.map fun dv => dot dv query_vec

/-- The order in which `np.argsort` lists positions of `sims`: ascending by
value, ties by original position (stability). -/
def simLe (sims : List ℚ) (i j : Nat) : Prop :=
  sims.getD i 0 < sims.getD j 0 ∨ (sims.getD i 0 = sims.getD j 0 ∧ i ≤ j)

instance (sims : List ℚ) : DecidableRel (simLe sims) := fun i j => by
  unfold simLe; infer_instance

instance (sims : List ℚ) : IsTotal Nat (simLe sims) where
  total i j := by
    rcases lt_trichotomy (sims.getD i 0) (sims.getD j 0) with h | h | h
    · exact Or.inl (Or.inl h)
    · rcases Nat.le_total i j with hij | hij
      · exact Or.inl (Or.inr ⟨h, hij⟩)
      · exact Or.inr (Or.inr ⟨h.symm, hij⟩)
    · exact Or.inr (Or.inl h)

instance (sims : List ℚ) : IsTrans Nat (simLe sims) where
  trans i j l hij hjl := by
    rcases hij with h₁ | ⟨h₁, h₁'⟩ <;> rcases hjl with h₂ | ⟨h₂, h₂'⟩
    · exact Or.inl (h₁.trans h₂)
    · exact Or.inl (h₂ ▸ h₁)
    · exact Or.inl (h₁ ▸ h₂)
    · exact Or.inr ⟨h₁.trans h₂, h₁'.trans h₂'⟩

/-- `np.argsort(sims)`: the indices `0 .. N-1` sorted ascending by score,
ties kept in original order. -/
def argsortAsc (sims : List ℚ) : List Nat :=
  (List.range sims.length).insertionSort (simLe sims)

/-- Embeds `embedding_utils.top_k_similar` after the query has been encoded
(the `model.encode` call is the external embedding backend; its possible
failure is modelled in `ChatEnv.embedQuery` below): computes the similarity
row, then `np.argsort(sims)[-k:][::-1]`, returning `(index, score)` pairs.
Python's slice `a[-k:]` is the last `min k N` elements when `k ≥ 1` but the
whole list when `k = 0`. -/
def top_k_similar (qv : List ℚ) (corpus_vecs : List (List ℚ)) (k : Nat) :
    List (Nat × ℚ) :=
  let sims := cosine_similarity_matrix qv corpus_vecs
  let idx := argsortAsc sims
  let sel := if k = 0 then idx else idx.drop (idx.length - k)
  sel.reverse.map fun i => (i, sims.getD i 0)

/-! ## Definitions: answering pipeline (`chatbot.py`)

The process-wide globals `_DOC_TEXTS` / `_DOC_EMB` are threaded as explicit
state; the filesystem and the embedding and generation backends are oracle
fields of `ChatEnv`.  A raised Python exception is an `Except.error`. -/

/-- The module globals of `chatbot.py`: `_DOC_TEXTS` and `_DOC_EMB`. -/
structure DocState where
  docTexts : List String
  docEmb : Option (List (List ℚ))

/-- The external world of `chatbot.py`: `files` holds the successfully read
contents of `docs/*.md` + `docs/*.txt` in sorted filename order (per-file
read errors are swallowed by the source's inner `try`), `embedDocs` and
`embedQuery` are the embedding backend (which may raise), and `generate` is
the text-generation backend (`llm_utils.chat_llm`, prompt and system
instructions to reply). -/
structure ChatEnv where
  files : List String
  embedDocs : List String → Except Unit (List (List ℚ))
  embedQuery : String → Except Unit (List ℚ)
  generate : String → String → String

/-- Embeds `chatbot._load_docs`: a no-op when `_DOC_TEXTS` is already
non-empty; otherwise reads the doc files and, when any were read, calls
`embed_texts` on them — a call that sits outside any `try`/`except`, so an
embedding failure propagates. -/
def _load_docs (env : ChatEnv) (st : DocState) : Except Unit DocState :=
  if st.docTexts ≠ [] then Except.ok st
  else if env.files ≠ [] then
    match env.embedDocs env.files with
    | Except.ok e => Except.ok ⟨env.files, some e⟩
    | Except.error e => Except.error e
  else Except.ok ⟨env.files, st.docEmb⟩

/-- The module constant `chatbot._SYSTEM`. -/
def _SYSTEM : String :=
  "You answer questions about Snowflake schema evolution. Prefer any provided context."

/-- The f-string prompt template of `chatbot.answer_question`. -/
def answerPrompt (context question : String) : String :=
  "\nContext (may be empty):\n" ++ context ++ "\n\nQuestion: " ++ question ++
    "\n\nAnswer clearly and concisely. When relevant, include Snowflake SQL.\n"

/-- One retrieved snippet: `f"[Doc {i}]\\n{_DOC_TEXTS[i][:1200]}"` (the
source writes a literal backslash-n there). -/
def docSnippet (texts : List String) (p : Nat × ℚ) : String :=
  "[Doc " ++ toString p.1 ++ "]\\n" ++ (texts.getD p.1 "").take 1200

/-- Embeds `chatbot.answer_question`: loads the docs (outside any `try`),
then inside a `try`/`except` embeds the question and appends the top-2
snippets to the context, swallowing any exception from that block, and
finally delegates the composed prompt to the generation backend. -/
def answer_question (env : ChatEnv) (st : DocState) (question : String)
    (extra_context : Option String) : Except Unit (String × DocState) :=
  match _load_docs env st with
  | Except.error e => Except.error e
  | Except.ok st' =>
    let context0 := extra_context.getD ""
    let context :=
      if st'.docTexts ≠ [] ∧ st'.docEmb ≠ none then
        match env.embedQuery question with
        | Except.ok qv =>
            let sims := top_k_similar qv (st'.docEmb.getD []) 2
            context0 ++ "\n\n" ++
              String.intercalate "\n\n" (sims.map (docSnippet st'.docTexts))
        | Except.error _ => context0
      else context0
    Except.ok (env.generate (answerPrompt context question) _SYSTEM, st')

/-! ## Definitions: LLM backends (`llm_utils.py`)

HTTP responses are modelled by a status code plus a small JSON value; a
Python exception (from `raise_for_status` or from attribute/type errors on
unexpected shapes) is an `Except.error` carrying the exception name. -/

/-- A small JSON value, enough for the response shapes the code inspects. -/
inductive JVal where
  | jstr : String → JVal
  | jnum : Int → JVal
  | jobj : List (String × JVal) → JVal
  | jarr : List JVal → JVal

/-- Python truthiness for the modelled JSON values. -/
def jTruthy : JVal → Bool
  | .jstr s => !s.isEmpty
  | .jnum n => decide (n ≠ 0)
  | .jobj f => !f.isEmpty
  | .jarr l => !l.isEmpty

/-- A chat message (`{"role": ..., "content": ...}`). -/
structure Msg where
  role : String
  content : String

/-- `chunk.get("message", {}).get("content", "")` for one element of a
list-shaped Ollama response; a non-dict chunk raises `AttributeError`. -/
def chunkField : JVal → Except String JVal
  | .jobj cf =>
      match cf.lookup "message" with
      | some (.jobj mf) => Except.ok ((mf.lookup "content").getD (.jstr ""))
      | some _ => Except.error "AttributeError"
      | none => Except.ok (.jstr "")
  | _ => Except.error "AttributeError"

/-- The list comprehension over chunks: evaluated left to right, first
failure raises. -/
def chunkFields : List JVal → Except String (List JVal)
  | [] => Except.ok []
  | c :: rest =>
      match chunkField c with
      | Except.error e => Except.error e
      | Except.ok v =>
          match chunkFields rest with
          | Except.error e => Except.error e
          | Except.ok vs => Except.ok (v :: vs)

/-- `"".join(...)`: concatenates string values, raising `TypeError` on a
non-string element. -/
def joinStrs : List JVal → Except String String
  | [] => Except.ok ""
  | .jstr s :: rest => (joinStrs rest).map (s ++ ·)
  | _ :: _ => Except.error "TypeError"

/-- Embeds `llm_utils._chat_ollama`: `raise_for_status` raises on a 4xx/5xx
status; a dict body with a dict `message` yields its `content` (default
`""`); a dict body without `message`, or a non-dict non-list body, yields
`""`; a list body concatenates the chunks' message contents.  The request
`messages` only feed the unmodelled network payload. -/
def _chat_ollama (_messages : List Msg) (status : Nat) (body : JVal) :
    Except String JVal :=
  if 400 ≤ status ∧ status < 600 then Except.error "HTTPError"
  else
    match body with
    | .jobj fields =>
        match fields.lookup "message" with
        | some (.jobj mf) => Except.ok ((mf.lookup "content").getD (.jstr ""))
        | some _ => Except.error "AttributeError"
        | none => Except.ok (.jstr "")
    | .jarr chunks =>
        match chunkFields chunks with
        | Except.error e => Except.error e
        | Except.ok vs =>
            match joinStrs vs with
            | Except.error e => Except.error e
            | Except.ok s => Except.ok (.jstr s)
    | _ => Except.ok (.jstr "")

/-- Embeds `llm_utils._chat_remote`: `raise_for_status` raises on a 4xx/5xx
status; a dict body returns its `text` field if present, else the first
`choices` element's `message.content` (default `""`); a dict with neither
field, a falsy `choices`, or a non-dict body yields `""`.  Subscripting or
`.get` on values of the wrong shape raises (the exact Python exception
class varies; the model uses one representative name per site). -/
def _chat_remote (_messages : List Msg) (status : Nat) (body : JVal) :
    Except String JVal :=
  if 400 ≤ status ∧ status < 600 then Except.error "HTTPError"
  else
    match body with
    | .jobj fields =>
        match fields.lookup "text" with
        | some v => Except.ok v
        | none =>
            match fields.lookup "choices" with
            | some (.jarr (c0 :: _)) =>
                match c0 with
                | .jobj cf =>
                    match cf.lookup "message" with
                    | some (.jobj mf) =>
                        Except.ok ((mf.lookup "content").getD (.jstr ""))
                    | some _ => Except.error "AttributeError"
                    | none => Except.ok (.jstr "")
                | _ => Except.error "TypeError"
            | some v =>
                if jTruthy v then Except.error "TypeError"
                else Except.ok (.jstr "")
            | none => Except.ok (.jstr "")
    | _ => Except.ok (.jstr "")

/-- The module-level configuration of `llm_utils.py` that `chat_llm`
consults: `LLM_PROVIDER` (default `"ollama"`) and `LLM_ENDPOINT`
(default `""`). -/
structure LLMConfig where
  provider : String
  endpoint : String

/-- Embeds `llm_utils.chat_llm`: builds the system+user message list, then
dispatches to `_chat_remote` exactly when `LLM_PROVIDER == "remote" and
LLM_ENDPOINT` (non-empty string truthiness), else to `_chat_ollama`.  Each
backend's HTTP response is an oracle parameter. -/
def chat_llm (cfg : LLMConfig) (user_prompt system_instructions : String)
    (ollamaStatus : Nat) (ollamaBody : JVal)
    (remoteStatus : Nat) (remoteBody : JVal) : Except String JVal :=
  let messages : List Msg :=
    [⟨"system", system_instructions⟩, ⟨"user", user_prompt⟩]
  if cfg.provider = "remote" ∧ cfg.endpoint ≠ "" then
    _chat_remote messages remoteStatus remoteBody
  else
    _chat_ollama messages ollamaStatus ollamaBody

/-! ## Supporting lemmas -/

theorem mem_sortStr {x : String} {l : List String} : x ∈ sortStr l ↔ x ∈ l := by
  simp [sortStr]

theorem sorted_sortStr (l : List String) : (sortStr l).Sorted (· ≤ ·) :=
  List.sorted_insertionSort _ l

theorem sortStr_eq_of_perm {l₁ l₂ : List String} (h : l₁.Perm l₂) :
    sortStr l₁ = sortStr l₂ :=
  List.eq_of_perm_of_sorted
    ((List.perm_insertionSort _ l₁).trans (h.trans (List.perm_insertionSort _ l₂).symm))
    (sorted_sortStr l₁) (sorted_sortStr l₂)

theorem mem_added_iff {e n : Schema} {k : String} :
    k ∈ (compare_schemas e n).1 ↔ k ∈ keys n ∧ k ∉ keys e := by
  simp [compare_schemas, mem_sortStr, List.mem_filter]

theorem mem_removed_iff {e n : Schema} {k : String} :
    k ∈ (compare_schemas e n).2.1 ↔ k ∈ keys e ∧ k ∉ keys n := by
  simp [compare_schemas, mem_sortStr, List.mem_filter]

theorem mem_conflicts_iff {e n : Schema} {k : String} :
    k ∈ (compare_schemas e n).2.2 ↔
      k ∈ keys e ∧ k ∈ keys n ∧ e.lookup k ≠ n.lookup k := by
  simp [compare_schemas, mem_sortStr, List.mem_filter, and_assoc]

/-- `List.lookup` (Python dict access) is invariant under permutation of an
association list with unique keys. -/
theorem lookup_eq_of_perm :
    ∀ {l₁ l₂ : Schema}, l₁.Perm l₂ → (keys l₁).Nodup →
      ∀ k : String, l₁.lookup k = l₂.lookup k := by
  intro l₁ l₂ h
  induction h with
  | nil => intro _ _; rfl
  | cons x h ih =>
      intro hn k
      rcases x with ⟨a, b⟩
      cases hk : k == a with
      | true => simp [List.lookup, hk]
      | false =>
          simp only [List.lookup, hk]
          exact ih (by simpa [keys] using hn.of_cons) k
  | swap x y l =>
      intro hn k
      rcases x with ⟨a, b⟩
      rcases y with ⟨c, d⟩
      have hac : c ≠ a := by
        have := hn
        simp [keys, List.nodup_cons] at this
        exact fun hca => this.1.1 hca
      cases hkc : k == c with
      | true =>
          have hkc' : k = c := eq_of_beq hkc
          have hka : (k == a) = false := by
            rw [beq_eq_false_iff_ne]
            exact fun hka => hac (hkc' ▸ hka ▸ rfl)
          simp [List.lookup, hkc, hka]
      | false =>
          cases hka : k == a with
          | true => simp [List.lookup, hkc, hka]
          | false => simp [List.lookup, hkc, hka]
  | trans h₁ h₂ ih₁ ih₂ =>
      intro hn k
      have hn₂ := ((h₁.map Prod.fst).nodup_iff).mp hn
      exact (ih₁ hn k).trans (ih₂ hn₂ k)

theorem isPrefixOf_iff_exists_append :
    ∀ n h : List Char, n.isPrefixOf h = true ↔ ∃ t, h = n ++ t := by
  intro n
  induction n with
  | nil => intro h; simp [List.isPrefixOf]
  | cons a as ih =>
      intro h
      cases h with
      | nil => simp [List.isPrefixOf]
      | cons b bs =>
          simp only [List.isPrefixOf, Bool.and_eq_true, beq_iff_eq]
          constructor
          · rintro ⟨rfl, hp⟩
            obtain ⟨t, rfl⟩ := (ih bs).mp hp
            exact ⟨t, rfl⟩
          · rintro ⟨t, ht⟩
            injection ht with h1 h2
            exact ⟨h1.symm, (ih bs).mpr ⟨t, h2⟩⟩

theorem substrB_iff (n : List Char) :
    ∀ h : List Char, substrB n h = true ↔ ∃ s t, h = s ++ n ++ t := by
  intro h
  induction h with
  | nil =>
      simp only [substrB, List.isEmpty_iff]
      constructor
      · intro he; exact ⟨[], [], by simp [he]⟩
      · rintro ⟨s, t, ht⟩
        rcases List.append_eq_nil.mp ht.symm with ⟨hsn, _⟩
        rcases List.append_eq_nil.mp hsn with ⟨_, hn⟩
        exact hn
  | cons c rest ih =>
      simp only [substrB, Bool.or_eq_true]
      constructor
      · rintro (hp | hr)
        · obtain ⟨t, ht⟩ := (isPrefixOf_iff_exists_append n (c :: rest)).mp hp
          exact ⟨[], t, by simp [ht]⟩
        · obtain ⟨s, t, ht⟩ := ih.mp hr
          exact ⟨c :: s, t, by simp [ht]⟩
      · rintro ⟨s, t, ht⟩
        cases s with
        | nil =>
            exact Or.inl ((isPrefixOf_iff_exists_append n (c :: rest)).mpr
              ⟨t, by simpa using ht⟩)
        | cons c' s' =>
            injection ht with h1 h2
            exact Or.inr (ih.mpr ⟨s', t, h2⟩)

theorem containsSub_iff (hay needle : String) :
    containsSub hay needle = true ↔ containsSubP hay needle :=
  substrB_iff needle.toList hay.toList

theorem getD_cosine_similarity_matrix (qv : List ℚ) (vecs : List (List ℚ))
    {i : Nat} (h : i < vecs.length) :
    (cosine_similarity_matrix qv vecs).getD i 0 = dot (vecs.getD i []) qv := by
  unfold cosine_similarity_matrix
  rw [List.getD_eq_getElem?_getD, List.getElem?_map, List.getElem?_eq_getElem h,
    List.getD_eq_getElem?_getD, List.getElem?_eq_getElem h]
  rfl

theorem mem_argsortAsc {sims : List ℚ} {i : Nat} :
    i ∈ argsortAsc sims ↔ i < sims.length := by
  unfold argsortAsc
  rw [List.mem_insertionSort, List.mem_range]

theorem length_argsortAsc (sims : List ℚ) :
    (argsortAsc sims).length = sims.length :=
  ((List.perm_insertionSort _ _).length_eq).trans (List.length_range _)

theorem nodup_argsortAsc (sims : List ℚ) : (argsortAsc sims).Nodup :=
  ((List.perm_insertionSort _ _).nodup_iff).mpr (List.nodup_range _)

theorem sorted_argsortAsc (sims : List ℚ) :
    (argsortAsc sims).Pairwise (simLe sims) :=
  List.sorted_insertionSort _ _

/-! ## Claim theorems -/

/-- C1: `compare_schemas` computes added / removed / conflicting columns as
set differences and an exact-equality intersection check, and the worked
example from the spec evaluates as claimed. -/
theorem compare_schemas_c1 :
    (∀ (baseline candidate : Schema) (k : String),
        (k ∈ (compare_schemas baseline candidate).1 ↔
          k ∈ keys candidate ∧ k ∉ keys baseline) ∧
        (k ∈ (compare_schemas baseline candidate).2.1 ↔
          k ∈ keys baseline ∧ k ∉ keys candidate) ∧
        (k ∈ (compare_schemas baseline candidate).2.2 ↔
          k ∈ keys baseline ∧ k ∈ keys candidate ∧
            baseline.lookup k ≠ candidate.lookup k)) ∧
    compare_schemas [("a", "VARCHAR"), ("b", "INTEGER")]
      [("b", "FLOAT"), ("c", "VARCHAR")] = (["c"], ["a"], ["b"]) := by
  refine ⟨fun baseline candidate k =>
    ⟨mem_added_iff, mem_removed_iff, mem_conflicts_iff⟩, ?_⟩
  decide

/-- C1 witness: the general characterization evaluated at the spec's example. -/
theorem compare_schemas_c1_witness :
    "c" ∈ (compare_schemas [("a", "VARCHAR"), ("b", "INTEGER")]
      [("b", "FLOAT"), ("c", "VARCHAR")]).1 :=
  ((compare_schemas_c1.1 [("a", "VARCHAR"), ("b", "INTEGER")]
      [("b", "FLOAT"), ("c", "VARCHAR")] "c").1).mpr (by decide)

/-- C6: comparing a schema with itself yields three empty sequences. -/
theorem compare_schemas_self_diff_empty :
    ∀ S : Schema, compare_schemas S S = ([], [], []) := by
  intro S
  have h1 : ((keys S).dedup).filter (fun k => decide (k ∉ keys S)) = [] := by
    rw [List.filter_eq_nil_iff]
    intro a ha
    simp only [decide_eq_true_eq, Decidable.not_not]
    exact List.mem_dedup.mp ha
  have h2 : ((keys S).dedup).filter
      (fun k => decide (k ∈ keys S ∧ S.lookup k ≠ S.lookup k)) = [] := by
    rw [List.filter_eq_nil_iff]
    intro a _
    simp
  show (sortStr (((keys S).dedup).filter (fun k => decide (k ∉ keys S))),
      sortStr (((keys S).dedup).filter (fun k => decide (k ∉ keys S))),
      sortStr (((keys S).dedup).filter
        (fun k => decide (k ∈ keys S ∧ S.lookup k ≠ S.lookup k)))) = ([], [], [])
  rw [h1, h2]
  rfl

/-- C6 witness: the self-diff theorem at a concrete one-column schema. -/
theorem compare_schemas_self_diff_empty_witness :
    compare_schemas [("x", "VARCHAR")] [("x", "VARCHAR")] = ([], [], []) :=
  compare_schemas_self_diff_empty [("x", "VARCHAR")]

/-- C7: the added columns of `compare_schemas A B` are the removed columns of
`compare_schemas B A`, and vice versa. -/
theorem compare_schemas_added_removed_symm :
    ∀ A B : Schema,
      (compare_schemas A B).1 = (compare_schemas B A).2.1 ∧
      (compare_schemas A B).2.1 = (compare_schemas B A).1 :=
  fun _ _ => ⟨rfl, rfl⟩

/-- C7 witness: symmetry at a concrete pair of schemas. -/
theorem compare_schemas_added_removed_symm_witness :
    (compare_schemas [("a", "VARCHAR")] [("b", "INTEGER")]).1 =
      (compare_schemas [("b", "INTEGER")] [("a", "VARCHAR")]).2.1 :=
  (compare_schemas_added_removed_symm [("a", "VARCHAR")] [("b", "INTEGER")]).1

/-- C8: the three output sequences of `compare_schemas` are pairwise
disjoint: no column name occurs in more than one of them. -/
theorem compare_schemas_disjoint :
    ∀ e n : Schema,
      (compare_schemas e n).1.Disjoint (compare_schemas e n).2.1 ∧
      (compare_schemas e n).1.Disjoint (compare_schemas e n).2.2 ∧
      (compare_schemas e n).2.1.Disjoint (compare_schemas e n).2.2 := by
  intro e n
  refine ⟨?_, ?_, ?_⟩ <;> intro k hk hk'
  · exact (mem_added_iff.mp hk).2 (mem_removed_iff.mp hk').1
  · exact (mem_added_iff.mp hk).2 (mem_conflicts_iff.mp hk').1
  · exact (mem_removed_iff.mp hk).2 (mem_conflicts_iff.mp hk').2.1

/-- C8 witness: disjointness at the spec's worked example. -/
theorem compare_schemas_disjoint_witness :
    (compare_schemas [("a", "VARCHAR"), ("b", "INTEGER")]
        [("b", "FLOAT"), ("c", "VARCHAR")]).1.Disjoint
      (compare_schemas [("a", "VARCHAR"), ("b", "INTEGER")]
        [("b", "FLOAT"), ("c", "VARCHAR")]).2.1 :=
  (compare_schemas_disjoint [("a", "VARCHAR"), ("b", "INTEGER")]
    [("b", "FLOAT"), ("c", "VARCHAR")]).1

/-- C5: the three sequences returned by `compare_schemas` are sorted in
ascending lexicographic order, and inputs holding the same key-to-type pairs
(in any order) produce identical outputs. -/
theorem compare_schemas_sorted_deterministic :
    ∀ e n : Schema,
      ((compare_schemas e n).1.Sorted (· ≤ ·) ∧
       (compare_schemas e n).2.1.Sorted (· ≤ ·) ∧
       (compare_schemas e n).2.2.Sorted (· ≤ ·)) ∧
      (∀ e' n' : Schema, e.Perm e' → n.Perm n' →
        (keys e).Nodup → (keys n).Nodup →
        compare_schemas e n = compare_schemas e' n') := by
  intro e n
  refine ⟨⟨sorted_sortStr _, sorted_sortStr _, sorted_sortStr _⟩, ?_⟩
  intro e' n' he hn henod hnnod
  have hkeys_e : (keys e).Perm (keys e') := he.map Prod.fst
  have hkeys_n : (keys n).Perm (keys n') := hn.map Prod.fst
  have hmem_e : ∀ k : String, k ∈ keys e ↔ k ∈ keys e' := fun k => hkeys_e.mem_iff
  have hmem_n : ∀ k : String, k ∈ keys n ↔ k ∈ keys n' := fun k => hkeys_n.mem_iff
  have hlook_e : ∀ k : String, e.lookup k = e'.lookup k :=
    lookup_eq_of_perm he henod
  have hlook_n : ∀ k : String, n.lookup k = n'.lookup k :=
    lookup_eq_of_perm hn hnnod
  have hadded :
      sortStr (((keys n).dedup).filter (fun k => decide (k ∉ keys e))) =
        sortStr (((keys n').dedup).filter (fun k => decide (k ∉ keys e'))) := by
    have hp : (fun k => decide (k ∉ keys e)) = (fun k => decide (k ∉ keys e')) :=
      funext fun k => decide_eq_decide.mpr (not_congr (hmem_e k))
    rw [hp]
    exact sortStr_eq_of_perm (hkeys_n.dedup.filter _)
  have hremoved :
      sortStr (((keys e).dedup).filter (fun k => decide (k ∉ keys n))) =
        sortStr (((keys e').dedup).filter (fun k => decide (k ∉ keys n'))) := by
    have hp : (fun k => decide (k ∉ keys n)) = (fun k => decide (k ∉ keys n')) :=
      funext fun k => decide_eq_decide.mpr (not_congr (hmem_n k))
    rw [hp]
    exact sortStr_eq_of_perm (hkeys_e.dedup.filter _)
  have hconf :
      sortStr (((keys e).dedup).filter
          (fun k => decide (k ∈ keys n ∧ e.lookup k ≠ n.lookup k))) =
        sortStr (((keys e').dedup).filter
          (fun k => decide (k ∈ keys n' ∧ e'.lookup k ≠ n'.lookup k))) := by
    have hp : (fun k => decide (k ∈ keys n ∧ e.lookup k ≠ n.lookup k)) =
        (fun k => decide (k ∈ keys n' ∧ e'.lookup k ≠ n'.lookup k)) :=
      funext fun k => decide_eq_decide.mpr
        (and_congr (hmem_n k) (by rw [hlook_e k, hlook_n k]))
    rw [hp]
    exact sortStr_eq_of_perm (hkeys_e.dedup.filter _)
  show (sortStr (((keys n).dedup).filter (fun k => decide (k ∉ keys e))),
      sortStr (((keys e).dedup).filter (fun k => decide (k ∉ keys n))),
      sortStr (((keys e).dedup).filter
        (fun k => decide (k ∈ keys n ∧ e.lookup k ≠ n.lookup k)))) =
    (sortStr (((keys n').dedup).filter (fun k => decide (k ∉ keys e'))),
      sortStr (((keys e').dedup).filter (fun k => decide (k ∉ keys n'))),
      sortStr (((keys e').dedup).filter
        (fun k => decide (k ∈ keys n' ∧ e'.lookup k ≠ n'.lookup k))))
  rw [hadded, hremoved, hconf]

/-- C2 counterexample: the normalizer is not case-insensitive.  On the
descriptor `"Int64"` (the string form of the pandas nullable integer dtype)
the code returns `"VARCHAR"`, while the claim's case-insensitive rule
(`normalize_dtype_ci`, modelled from the spec's words) returns
`"INTEGER"`. -/
theorem normalize_dtype_c2_counterexample :
    normalize_dtype "Int64" = "VARCHAR" ∧
    normalize_dtype_ci "Int64" = "INTEGER" ∧
    ("VARCHAR" : String) ≠ "INTEGER" := by
  refine ⟨by decide, by decide, by decide⟩

/-- C2 amended: the normalizer is total — every descriptor maps to exactly
one of the five labels — and follows the first-match, **case-sensitive**
substring rule: "int" → INTEGER, else "float" → FLOAT, else "bool" →
BOOLEAN, else "datetime" or "date" → TIMESTAMP, else VARCHAR; on the
lowercase dtype strings pandas actually produces it behaves as the spec's
examples say. -/
theorem normalize_dtype_total_first_match :
    (∀ d : String,
      normalize_dtype d ∈
        (["INTEGER", "FLOAT", "BOOLEAN", "TIMESTAMP", "VARCHAR"] : List String) ∧
      (normalize_dtype d = "INTEGER" ↔ containsSubP d "int") ∧
      (normalize_dtype d = "FLOAT" ↔
        ¬containsSubP d "int" ∧ containsSubP d "float") ∧
      (normalize_dtype d = "BOOLEAN" ↔
        ¬containsSubP d "int" ∧ ¬containsSubP d "float" ∧ containsSubP d "bool") ∧
      (normalize_dtype d = "TIMESTAMP" ↔
        ¬containsSubP d "int" ∧ ¬containsSubP d "float" ∧ ¬containsSubP d "bool" ∧
          (containsSubP d "datetime" ∨ containsSubP d "date")) ∧
      (normalize_dtype d = "VARCHAR" ↔
        ¬containsSubP d "int" ∧ ¬containsSubP d "float" ∧ ¬containsSubP d "bool" ∧
          ¬containsSubP d "datetime" ∧ ¬containsSubP d "date")) ∧
    normalize_dtype "int64" = "INTEGER" ∧
    normalize_dtype "datetime64[ns]" = "TIMESTAMP" ∧
    normalize_dtype "category" = "VARCHAR" := by
  refine ⟨?_, by decide, by decide, by decide⟩
  intro d
  unfold normalize_dtype
  rw [← containsSub_iff d "int", ← containsSub_iff d "float",
    ← containsSub_iff d "bool", ← containsSub_iff d "datetime",
    ← containsSub_iff d "date"]
  cases h1 : containsSub d "int" <;> cases h2 : containsSub d "float" <;>
    cases h3 : containsSub d "bool" <;> cases h4 : containsSub d "datetime" <;>
    cases h5 : containsSub d "date" <;> decide

/-- C2 witness: the first-match characterization instantiated at the
concrete pandas descriptor `"int64"`. -/
theorem normalize_dtype_total_first_match_witness :
    normalize_dtype "int64" = "INTEGER" :=
  ((normalize_dtype_total_first_match.1 "int64").2.1).mpr
    ⟨[], ['6', '4'], by decide⟩

/-- C4 counterexample: with two stored vectors of equal score, the code
returns the **larger** index first (`np.argsort` is ascending and stable on
these sizes, and `[::-1]` reverses it), not the smaller one as claimed. -/
theorem top_k_similar_c4_counterexample :
    top_k_similar [1] [[1], [1]] 2 = [(1, 1), (0, 1)] ∧
    ([((1 : Nat), (1 : ℚ)), (0, 1)] : List (Nat × ℚ)) ≠ [(0, 1), (1, 1)] := by
  constructor
  · have hs : cosine_similarity_matrix [1] [[1], [1]] = [1, 1] := by
      norm_num [cosine_similarity_matrix, dot]
    simp only [top_k_similar]
    rw [hs]
    decide
  · decide

/-- C5 witness: determinism at a concrete pair of permuted schemas. -/
theorem compare_schemas_sorted_deterministic_witness :
    compare_schemas [("a", "VARCHAR"), ("b", "INTEGER")] [("c", "FLOAT")] =
      compare_schemas [("b", "INTEGER"), ("a", "VARCHAR")] [("c", "FLOAT")] :=
  (compare_schemas_sorted_deterministic
      [("a", "VARCHAR"), ("b", "INTEGER")] [("c", "FLOAT")]).2
    [("b", "INTEGER"), ("a", "VARCHAR")] [("c", "FLOAT")]
    (by decide) (by decide) (by decide) (by decide)

/-- C4 amended: for `k ≥ 1`, `top_k_similar` returns exactly `min k N`
pairs (for `k = 0` the Python slice `[-0:]` returns all `N`); each returned
index is a valid corpus index whose score is the dot product of the query
vector with the stored vector at that index; the sequence is ordered by
strictly descending score, with equal scores broken in favor of the
**larger** original index. -/
theorem top_k_similar_spec :
    ∀ (qv : List ℚ) (vecs : List (List ℚ)) (k : Nat), 1 ≤ k →
      (top_k_similar qv vecs k).length = min k vecs.length ∧
      (∀ p ∈ top_k_similar qv vecs k,
        p.1 < vecs.length ∧ p.2 = dot (vecs.getD p.1 []) qv) ∧
      (top_k_similar qv vecs k).Pairwise
        (fun a b => b.2 < a.2 ∨ (b.2 = a.2 ∧ b.1 < a.1)) := by
  intro qv vecs k hk
  have hexp : top_k_similar qv vecs k =
      ((argsortAsc (cosine_similarity_matrix qv vecs)).drop
          ((argsortAsc (cosine_similarity_matrix qv vecs)).length - k)).reverse.map
        (fun i => (i, (cosine_similarity_matrix qv vecs).getD i 0)) := by
    simp only [top_k_similar]
    rw [if_neg (by omega : ¬ k = 0)]
  rw [hexp]
  set sims := cosine_similarity_matrix qv vecs with hsims
  set idx := argsortAsc sims with hidx
  set sel := idx.drop (idx.length - k) with hsel
  have hlen_sims : sims.length = vecs.length := by
    rw [hsims]; exact List.length_map _ _
  have hlen_idx : idx.length = sims.length := by
    rw [hidx]; exact length_argsortAsc sims
  have hsel_sub : sel.Sublist idx := by rw [hsel]; exact List.drop_sublist _ _
  have hmem_sel : ∀ i ∈ sel, i < vecs.length := fun i hi => by
    have := mem_argsortAsc.mp (hsel_sub.subset hi)
    omega
  refine ⟨?_, ?_, ?_⟩
  · rw [List.length_map, List.length_reverse, hsel, List.length_drop]
    omega
  · rintro p hp
    rw [List.mem_map] at hp
    obtain ⟨a, ha, hfa⟩ := hp
    rw [List.mem_reverse] at ha
    have halt : a < vecs.length := hmem_sel a ha
    rw [← hfa]
    exact ⟨halt, getD_cosine_similarity_matrix qv vecs halt⟩
  · rw [List.pairwise_map, List.pairwise_reverse]
    have hsorted : sel.Pairwise (simLe sims) :=
      (sorted_argsortAsc sims).sublist hsel_sub
    have hnd : sel.Nodup := (nodup_argsortAsc sims).sublist hsel_sub
    refine List.Pairwise.imp ?_ (List.Pairwise.and hsorted hnd)
    rintro a b ⟨hab, hne⟩
    rcases hab with h | ⟨h, hle⟩
    · exact Or.inl h
    · exact Or.inr ⟨h, lt_of_le_of_ne hle hne⟩

/-- C4 witness: the amended statement at a one-document corpus with
`k = 1`. -/
theorem top_k_similar_spec_witness :
    (top_k_similar [1] [[1]] 1).length = min 1 ([[(1 : ℚ)]] : List (List ℚ)).length :=
  (top_k_similar_spec [1] [[1]] 1 (by decide)).1

/-- C3 counterexample: with a non-empty docs directory and an embedding
backend that raises, the `embed_texts` call inside `_load_docs` sits outside
any `try`, so `answer_question` propagates the embedding failure instead of
returning an answer. -/
theorem answer_question_c3_counterexample :
    answer_question
      ⟨["doc"], fun _ => Except.error (), fun _ => Except.error (),
        fun _ _ => "reply"⟩
      ⟨[], none⟩ "q" none = Except.error () := rfl

/-- C3 amended: an embedding failure while answering the query (inside the
`try` of `answer_question`) is swallowed — the function returns the
generation backend's reply on a prompt composed from `extra_context` (or
empty context) only; but an embedding failure while loading the documents
(the `embed_texts` call in `_load_docs`) propagates to the caller. -/
theorem answer_question_retrieval_degradation :
    ∀ (env : ChatEnv) (st : DocState) (q : String) (ec : Option String),
      (∀ st', _load_docs env st = Except.ok st' →
        env.embedQuery q = Except.error () →
        answer_question env st q ec =
          Except.ok (env.generate (answerPrompt (ec.getD "") q) _SYSTEM, st')) ∧
      (st.docTexts = [] → env.files ≠ [] →
        env.embedDocs env.files = Except.error () →
        answer_question env st q ec = Except.error ()) := by
  intro env st q ec
  constructor
  · intro st' hload hq
    by_cases hc : st'.docTexts ≠ [] ∧ st'.docEmb ≠ none
    · simp only [answer_question, hload]
      rw [if_pos hc, hq]
    · simp only [answer_question, hload]
      rw [if_neg hc]
  · intro h1 h2 h3
    have hload : _load_docs env st = Except.error () := by
      unfold _load_docs
      rw [if_neg (fun hne => hne h1), if_pos h2, h3]
    simp only [answer_question, hload]

/-- C3 witness: the amended retrieval-degradation clause at a concrete
environment with an empty docs directory and a failing embedding backend. -/
theorem answer_question_retrieval_degradation_witness :
    answer_question
      ⟨[], fun _ => Except.error (), fun _ => Except.error (),
        fun _ _ => "reply"⟩
      ⟨[], none⟩ "q" none = Except.ok ("reply", (⟨[], none⟩ : DocState)) :=
  (answer_question_retrieval_degradation
      ⟨[], fun _ => Except.error (), fun _ => Except.error (),
        fun _ _ => "reply"⟩
      ⟨[], none⟩ "q" none).1 ⟨[], none⟩ rfl rfl

/-- C9 counterexample: on a well-formed HTTP 200 response whose JSON object
body lacks the recognized fields (`message` for Ollama, `text`/`choices`
for the remote backend), both chat functions return the normal-looking
empty string instead of raising. -/
theorem chat_backends_c9_counterexample :
    _chat_ollama [] 200 (.jobj []) = Except.ok (.jstr "") ∧
    _chat_remote [] 200 (.jobj []) = Except.ok (.jstr "") := ⟨rfl, rfl⟩

/-- C9 amended: both backends raise on a non-success HTTP status
(`raise_for_status`), but a malformed 2xx response body — a JSON object
lacking the recognized `message` / `text` / `choices` fields — makes them
return the empty string normally rather than raise. -/
theorem chat_backends_raise_on_http_only :
    ∀ (messages : List Msg) (status : Nat) (fields : List (String × JVal)),
      (400 ≤ status → status < 600 →
        (∀ body : JVal,
          _chat_ollama messages status body = Except.error "HTTPError") ∧
        (∀ body : JVal,
          _chat_remote messages status body = Except.error "HTTPError")) ∧
      (status < 400 →
        (fields.lookup "message" = none →
          _chat_ollama messages status (.jobj fields) = Except.ok (.jstr "")) ∧
        (fields.lookup "text" = none → fields.lookup "choices" = none →
          _chat_remote messages status (.jobj fields) = Except.ok (.jstr ""))) := by
  intro messages status fields
  constructor
  · intro h1 h2
    constructor
    · intro body
      unfold _chat_ollama
      rw [if_pos ⟨h1, h2⟩]
    · intro body
      unfold _chat_remote
      rw [if_pos ⟨h1, h2⟩]
  · intro h
    have hn : ¬(400 ≤ status ∧ status < 600) := by omega
    constructor
    · intro hm
      unfold _chat_ollama
      rw [if_neg hn]
      simp only [hm]
    · intro ht hc
      unfold _chat_remote
      rw [if_neg hn]
      simp only [ht, hc]

/-- C9 witness: the amended statement at a concrete 500 response and a
concrete empty-object 200 response. -/
theorem chat_backends_raise_on_http_only_witness :
    _chat_ollama [] 500 (.jobj []) = Except.error "HTTPError" ∧
    _chat_remote [] 200 (.jobj []) = Except.ok (.jstr "") :=
  ⟨((chat_backends_raise_on_http_only [] 500 []).1 (by decide) (by decide)).1
      (.jobj []),
   ((chat_backends_raise_on_http_only [] 200 []).2 (by decide)).2 rfl rfl⟩

/-- C10: `chat_llm` dispatches to the remote backend exactly when the
provider is `"remote"` and the endpoint is non-empty; every other
configuration — including provider `"remote"` with an empty endpoint —
silently falls back to the local Ollama backend. -/
theorem chat_llm_dispatch :
    ∀ (cfg : LLMConfig) (u s : String) (os : Nat) (ob : JVal)
      (rs : Nat) (rb : JVal),
      (cfg.provider = "remote" → cfg.endpoint ≠ "" →
        chat_llm cfg u s os ob rs rb =
          _chat_remote [⟨"system", s⟩, ⟨"user", u⟩] rs rb) ∧
      ((cfg.provider ≠ "remote" ∨ cfg.endpoint = "") →
        chat_llm cfg u s os ob rs rb =
          _chat_ollama [⟨"system", s⟩, ⟨"user", u⟩] os ob) ∧
      (∀ p : String, chat_llm ⟨p, ""⟩ u s os ob rs rb =
        _chat_ollama [⟨"system", s⟩, ⟨"user", u⟩] os ob) := by
  intro cfg u s os ob rs rb
  refine ⟨?_, ?_, ?_⟩
  · intro h1 h2
    unfold chat_llm
    rw [if_pos ⟨h1, h2⟩]
  · intro h
    unfold chat_llm
    rw [if_neg (by tauto)]
  · intro p
    unfold chat_llm
    rw [if_neg (by simp)]

/-- C10 witness: the fallback clause at the edge configuration
`provider = "remote"`, empty endpoint. -/
theorem chat_llm_dispatch_witness :
    chat_llm ⟨"remote", ""⟩ "u" "s" 200 (.jobj []) 201 (.jobj []) =
      _chat_ollama [⟨"system", "s"⟩, ⟨"user", "u"⟩] 200 (.jobj []) :=
  (chat_llm_dispatch ⟨"remote", ""⟩ "u" "s" 200 (.jobj []) 201 (.jobj [])).2.1
    (Or.inr rfl)
